import Mathlib

/-!
Verification of the FlipDishEmbed chat-orchestration engine
(`ChatbotService.chat` and its helpers in the chatbot service module).

The engine is embedded shallowly:

* JavaScript/JSON values flowing through tool results are modelled by the
  inductive `JVal`; JSON field access (`parsed.data?.items`) becomes
  `JVal.getField` / `JVal.getPath` (property access on a non-object yields
  `none`, matching the guarded optional-chaining reads the scanners use).
* Tool-result message content is `ContentV`: `ContentV.json j` stands for
  content that is the JSON serialization of `j` (so `JSON.parse` succeeds and
  yields `j`), while `ContentV.str s` stands for raw text on which
  `JSON.parse` throws (the scanners' catch branches).
* The external collaborators (Domain Gateway, OpenAI completion endpoint) are
  pure inputs: a `Gateway` record of `Except`-valued capabilities and the two
  model replies carried by `Turn`.  Every gateway invocation the engine makes
  is logged in order as a `GwCall`, and every message sequence sent to the
  completion endpoint is logged in `ChatOut.completionSends`, so the theorems
  can speak about "no gateway call" / "no second completion round".
* Monetary amounts are modelled as integers (floating point is out of scope);
  `toFixed(2)` on an integral amount renders as the amount followed by ".00".
-/

/-- JSON/JavaScript values as seen by the engine. -/
inductive JVal where
  | null : JVal
  | bool (b : Bool) : JVal
  | num (n : Int) : JVal
  | str (s : String) : JVal
  | arr (xs : List JVal) : JVal
  | obj (fields : List (String × JVal)) : JVal

/-- JavaScript strict equality `===` restricted to JSON values of like shape
(numbers, strings, booleans, null); distinct shapes compare unequal.  Object
and array operands compare by reference in JavaScript; the engine only ever
compares ids (numbers), so reference equality is never exercised and deep
comparison is a safe stand-in. -/
def JVal.jsEq : JVal → JVal → Bool
  | .null, .null => true
  | .bool a, .bool b => a == b
  | .num a, .num b => a == b
  | .str a, .str b => a == b
  | _, _ => false

/-- Property read `v[k]`: only objects have named fields; JSON.parse output has
no duplicate keys, so first-match lookup is adequate. -/
def JVal.getField : JVal → String → Option JVal
  | .obj fields, k => (fields.find? (fun p => p.1 = k)).map Prod.snd
  | _, _ => none

/-- Optional-chained path read `v.k1?.k2?...`. -/
def JVal.getPath : JVal → List String → Option JVal
  | j, [] => some j
  | j, k :: ks =>
    match j.getField k with
    | some v => JVal.getPath v ks
    | none => none

/-- JavaScript truthiness of a JSON value. -/
def JVal.truthy : JVal → Bool
  | .null => false
  | .bool b => b
  | .num n => n != 0
  | .str s => s != ""
  | .arr _ => true
  | .obj _ => true

mutual

/-- JavaScript `String(v)` / template-literal rendering of a value. -/
def JVal.display : JVal → String
  | .null => "null"
  | .bool b => cond b "true" "false"
  | .num n => toString n
  | .str s => s
  | .obj _ => "[object Object]"
  | .arr xs => JVal.displayArr xs

/-- `Array.prototype.toString`: elements joined with ",", null rendered empty. -/
def JVal.displayArr : List JVal → String
  | [] => ""
  | [JVal.null] => ""
  | [v] => JVal.display v
  | JVal.null :: rest => "," ++ JVal.displayArr rest
  | v :: rest => JVal.display v ++ "," ++ JVal.displayArr rest

end

/-- One element of `Array.prototype.join`: `undefined`/`null` render empty. -/
def joinElem : Option JVal → String
  | none => ""
  | some JVal.null => ""
  | some v => v.display

/-- `array.join(sep)` over possibly-undefined elements. -/
def joinVals (sep : String) : List (Option JVal) → String
  | [] => ""
  | [x] => joinElem x
  | x :: rest => joinElem x ++ sep ++ joinVals sep rest

/-- Minimal JSON string escaping (quote and backslash). -/
def escapeJStr (s : String) : String :=
  String.join (s.toList.map (fun c =>
    if c = '"' then "\\\"" else if c = '\\' then "\\\\" else String.singleton c))

mutual

/-- `JSON.stringify` (object keys in insertion order). -/
def JVal.stringify : JVal → String
  | .null => "null"
  | .bool b => cond b "true" "false"
  | .num n => toString n
  | .str s => "\"" ++ escapeJStr s ++ "\""
  | .arr xs => "[" ++ JVal.stringifyArr xs ++ "]"
  | .obj fs => "\x7b" ++ JVal.stringifyObj fs ++ "\x7d"

def JVal.stringifyArr : List JVal → String
  | [] => ""
  | [v] => JVal.stringify v
  | v :: rest => JVal.stringify v ++ "," ++ JVal.stringifyArr rest

def JVal.stringifyObj : List (String × JVal) → String
  | [] => ""
  | [(k, v)] => "\"" ++ escapeJStr k ++ "\":" ++ JVal.stringify v
  | (k, v) :: rest =>
    "\"" ++ escapeJStr k ++ "\":" ++ JVal.stringify v ++ "," ++ JVal.stringifyObj rest

end

/-- Lower-case a string (`String.prototype.toLowerCase`, ASCII range). -/
def lowerStr (s : String) : String := String.mk (s.toList.map Char.toLower)

/-- Boolean list-prefix test. -/
def isPrefixOfB : List Char → List Char → Bool
  | [], _ => true
  | _ :: _, [] => false
  | a :: as, b :: bs => a = b && isPrefixOfB as bs

/-- Does `pat` occur as a contiguous sublist of the first argument? -/
def hasSubList : List Char → List Char → Bool
  | [], pat => pat.isEmpty
  | a :: rest, pat => isPrefixOfB pat (a :: rest) || hasSubList rest pat

/-- `String.prototype.includes`. -/
def hasSubstr (s pat : String) : Bool := hasSubList s.toList pat.toList

/-- Regex word character `\w`, i.e. `[A-Za-z0-9_]`. -/
def isWordChar (c : Char) : Bool := c.isAlphanum || c = '_'

/-- Does `pat` occur at index `i` of `s` with `\b` boundaries on both sides?
All vocabulary words start and end with word characters, so the boundary
holds exactly when the neighbouring character is absent or a non-word char. -/
def wordAt (s pat : List Char) (i : Nat) : Bool :=
  isPrefixOfB pat (s.drop i)
    && (decide (i = 0) || !isWordChar (s.getD (i - 1) ' '))
    && (decide (s.length ≤ i + pat.length) || !isWordChar (s.getD (i + pat.length) ' '))

/-- `\b<pat>\b` matches somewhere in `s`. -/
def containsWord (s pat : String) : Bool :=
  (List.range (s.toList.length + 1)).any (fun i => wordAt s.toList pat.toList i)

/-- The purchase vocabulary of `isCheckoutIntent`
(`/\b(buy|checkout|check out|order|place order|submit order|pay|purchase)\b/`). -/
def checkoutKeywords : List String :=
  ["buy", "checkout", "check out", "order", "place order", "submit order", "pay", "purchase"]

/-- `ChatbotService.isCheckoutIntent`: lower-case the message, then test the
word-boundary alternation. -/
def isCheckoutIntent (message : String) : Bool :=
  let normalized := lowerStr message
  checkoutKeywords.any (fun k => containsWord normalized k)

/-- `ChatbotService.normalizeLeadTimePrompt`: strip a case-insensitive leading
`Tell the user:` (plus following whitespace), trim, strip leading/trailing
double-quote runs, and fall back to a stock confirmation when empty. -/
def normalizeLeadTimePrompt (prompt : String) : String :=
  let cs := prompt.toList
  let pre := "tell the user:".toList
  let afterPre :=
    if isPrefixOfB pre (cs.map Char.toLower) then
      (cs.drop pre.length).dropWhile Char.isWhitespace
    else cs
  let trimmed := ((afterPre.dropWhile Char.isWhitespace).reverse.dropWhile Char.isWhitespace).reverse
  let unquoted := ((trimmed.dropWhile (fun c => c = '"')).reverse.dropWhile (fun c => c = '"')).reverse
  if unquoted.isEmpty then "Thanks! Your order has been placed." else String.mk unquoted

/-- Message roles. -/
inductive Role where
  | user | assistant | system | tool
deriving DecidableEq

/-- Message content: either raw text (on which `JSON.parse` throws) or the
serialized form of a JSON value (on which `JSON.parse` succeeds). -/
inductive ContentV where
  | str (s : String)
  | json (j : JVal)

/-- The content as the string the message actually carries. -/
def ContentV.asString : ContentV → String
  | .str s => s
  | .json j => j.stringify

/-- JavaScript truthiness of the content string: serialized JSON is never
empty, raw text is truthy iff nonempty. -/
def ContentV.truthy : ContentV → Bool
  | .str s => s != ""
  | .json _ => true

/-- Parsed JSON tool-call arguments, one variant per enumerated tool name
(the tagged decoding of the duck-typed `functionArgs`). -/
inductive ToolArgs where
  | searchMenu (searchTerms : List String)
  | showItems (menuItemIds : Option (List JVal))
  | verifyOptionSelection (menuItemId : Int) (optionSetId : String) (selectedOption : String)
  | addToBasket (menuItemId : Int) (quantity : Option Int) (optionSelections : Option JVal)
  | removeFromBasket (menuItemId : Int) (quantity : Option Int) (optionSelections : Option JVal)
  | clearBasket
  | submitOrder
  | unknownTool (name : String)

/-- The `function.name` string of the call. -/
def ToolArgs.toolName : ToolArgs → String
  | .searchMenu _ => "search_menu"
  | .showItems _ => "show_items"
  | .verifyOptionSelection _ _ _ => "verify_option_selection"
  | .addToBasket _ _ _ => "add_to_basket"
  | .removeFromBasket _ _ _ => "remove_from_basket"
  | .clearBasket => "clear_basket"
  | .submitOrder => "submit_order"
  | .unknownTool n => n

/-- A tool-call request (id plus parsed arguments). -/
structure ToolCall where
  id : String
  args : ToolArgs

/-- A chat message. -/
structure Msg where
  role : Role
  content : ContentV
  tool_call_id : Option String := none
  tool_calls : List ToolCall := []

/-- `FlipdishApiError` / thrown `Error` as observed by `handleToolError`. -/
structure ApiErr where
  message : String
  errorCode : Option String := none
  userMessage : Option String := none

/-- `OrderResult` returned by the gateway's `submitOrder`. -/
structure OrderRes where
  success : Bool
  orderId : Option String := none
  leadTimePrompt : Option String := none
  error : Option String := none

/-- One basket line (`BasketItem`); monetary amounts as integers. -/
structure BasketLine where
  menuItemId : Int
  name : String
  quantity : Int
  unitPrice : Option Int := none
  totalPrice : Option Int := none

/-- `BasketSummary`. -/
structure Basket where
  basketMenuItems : List BasketLine
  totalPrice : Option Int := none

/-- The payload of a gateway `updateBasket` call. -/
inductive BasketUpdate where
  | add (menuItemId : Int) (quantity : Int) (optionSelections : Option JVal)
  | remove (menuItemId : Int) (quantity : Int) (optionSelections : Option JVal)

/-- One gateway invocation, as logged in order of occurrence. -/
inductive GwCall where
  | getBasket
  | searchMenu (query : Option String)
  | updateBasket (payload : BasketUpdate)
  | clearBasket
  | submitOrder

/-- The Domain Gateway as a record of pure capabilities (session id and
token are fixed for the turn and folded into the record). -/
structure Gateway where
  getBasketR : Except ApiErr Basket
  searchMenuR : Option String → Except ApiErr (List JVal)
  updateBasketR : BasketUpdate → Except ApiErr Basket
  clearBasketR : Except ApiErr Unit
  submitOrderR : Except ApiErr OrderRes

/-- One chat turn's inputs: the persisted history, the auth token and the
two completion-endpoint replies (the completion endpoint is an external
collaborator, so the model's answers are inputs to the engine). -/
structure Turn where
  messages : List Msg
  token : Option String
  round1Content : String
  round1ToolCalls : List ToolCall
  round2Content : String

/-- `ChatResponse` (fields optional in TypeScript are `Option`; an absent
field is `none`). -/
structure ChatRes where
  message : Msg
  toolCalls : Option (List ToolCall) := none
  allMessages : Option (List Msg) := none
  authRequired : Option Bool := none
  tokenExpired : Option Bool := none
  orderSubmitted : Option Bool := none
  orderId : Option String := none
  leadTimePrompt : Option String := none

/-- The observable outcome of a turn: the response plus the effect logs. -/
structure ChatOut where
  result : ChatRes
  gwCalls : List GwCall
  completionSends : List (List Msg)

/-- JavaScript `a || b` for an optional string: falls through on
`undefined` and on the empty string. -/
def jsOr (o : Option String) (d : String) : String :=
  match o with
  | some s => if s = "" then d else s
  | none => d

/-- Emit an object field only when the value is defined (a JavaScript object
field holding `undefined` is dropped by `JSON.stringify` and reads back as
`undefined`, which `Option` models as `none`). -/
def optField (k : String) (v : Option JVal) : List (String × JVal) :=
  match v with
  | some j => [(k, j)]
  | none => []

/-- Serialize a basket line for a tool result (`BasketItem` fields). -/
def basketLineToJson (l : BasketLine) : JVal :=
  JVal.obj ([("menuItemId", JVal.num l.menuItemId), ("name", JVal.str l.name),
             ("quantity", JVal.num l.quantity)]
    ++ optField "unitPrice" (l.unitPrice.map JVal.num)
    ++ optField "totalPrice" (l.totalPrice.map JVal.num))

/-- Serialize a `BasketSummary` for a tool result. -/
def basketToJson (b : Basket) : JVal :=
  JVal.obj ([("basketMenuItems", JVal.arr (b.basketMenuItems.map basketLineToJson))]
    ++ optField "totalPrice" (b.totalPrice.map JVal.num))

/-- `ChatbotService.handleToolError`. -/
def handleToolError (e : ApiErr) : JVal :=
  if e.errorCode = some "TOKEN_EXPIRED" then
    JVal.obj [("error", JVal.str "TOKEN_EXPIRED"),
              ("message", JVal.str "Your session has expired. Please sign in again.")]
  else if hasSubstr e.message "closed" then
    JVal.obj [("error", JVal.str "RESTAURANT_CLOSED"),
              ("message", JVal.str "The restaurant is currently closed.")]
  else
    JVal.obj [("error", JVal.str (jsOr e.userMessage e.message))]

/-- `args.quantity || 1`: absent and zero both coerce to the default 1. -/
def effQuantity : Option Int → Int
  | none => 1
  | some n => if n = 0 then 1 else n

/-- Template-literal rendering of a possibly-undefined property. -/
def displayOpt : Option JVal → String
  | none => "undefined"
  | some v => v.display

/-- The cached item's id list, as `searchResults.map(item => item.menuItemId)`. -/
def cacheIds (searchResults : List JVal) : List (Option JVal) :=
  searchResults.map (fun item => item.getField "menuItemId")

/-- `executeTool` for `verify_option_selection` (case-insensitive option-set
and option lookup against the cached item's `optionSets`). -/
def verifyOptionTool (searchResults : List JVal) (menuItemId : Int)
    (optionSetId selectedOption : String) : JVal :=
  match searchResults.find? (fun i =>
    match i.getField "menuItemId" with
    | some (JVal.num n) => n == menuItemId
    | _ => false) with
  | none =>
    JVal.obj [("error", JVal.str ("Item " ++ toString menuItemId
      ++ " not found in search results. Please search again."))]
  | some item =>
    match item.getField "optionSets" with
    | some (JVal.arr optionSets) =>
      if optionSets.isEmpty then
        JVal.obj [("error", JVal.str ("Item " ++ displayOpt (item.getField "name")
          ++ " has no options."))]
      else
        match optionSets.find? (fun os =>
          match os.getField "optionSetId" with
          | some (JVal.str s) => lowerStr s == lowerStr optionSetId
          | _ => false) with
        | none =>
          JVal.obj [("error", JVal.str ("Option Set \"" ++ optionSetId
            ++ "\" not found. Available sets: "
            ++ joinVals ", " (optionSets.map (fun os => os.getField "optionSetId"))))]
        | some os =>
          match os.getField "options" with
          | some (JVal.arr opts) =>
            (match opts.find? (fun o =>
              match o.getField "name" with
              | some (JVal.str s) => lowerStr s == lowerStr selectedOption
              | _ => false) with
            | none =>
              JVal.obj [("error", JVal.str ("Option \"" ++ selectedOption
                ++ "\" not found in set \"" ++ displayOpt (os.getField "optionSetId")
                ++ "\". Available options: "
                ++ (if joinVals ", " (opts.map (fun x => x.getField "name")) = "" then "none"
                    else joinVals ", " (opts.map (fun x => x.getField "name")))))]
            | some o =>
              JVal.obj [("status", JVal.num 200), ("valid", JVal.bool true),
                ("verifiedSelection", JVal.obj
                  (optField "optionSetId" (os.getField "optionSetId")
                    ++ optField "selectedOption" (o.getField "name")))])
          | _ =>
            JVal.obj [("error", JVal.str ("Option \"" ++ selectedOption
              ++ "\" not found in set \"" ++ displayOpt (os.getField "optionSetId")
              ++ "\". Available options: " ++ "none"))]
    | _ =>
      JVal.obj [("error", JVal.str ("Item " ++ displayOpt (item.getField "name")
        ++ " has no options."))]

/-- `ChatbotService.executeTool`: the result (or thrown error) of one tool
call, together with the gateway calls it performed, in order. -/
def executeTool (gw : Gateway) (token : Option String) (args : ToolArgs)
    (searchResults : List JVal) : Except ApiErr JVal × List GwCall :=
  match args with
  | .searchMenu terms =>
    let q := terms.head?
    (match gw.searchMenuR q with
     | .ok items =>
       (Except.ok (JVal.obj [("status", JVal.num 200),
         ("data", JVal.obj [("items", JVal.arr items)])]), [GwCall.searchMenu q])
     | .error e => (Except.error e, [GwCall.searchMenu q]))
  | .showItems ids =>
    let requestedIds := ids.getD []
    let items := searchResults.filter (fun item =>
      match item.getField "menuItemId" with
      | some v => requestedIds.any (fun r => JVal.jsEq r v)
      | none => false)
    (Except.ok (JVal.obj [("status", JVal.num 200),
      ("displayType", JVal.str "menu_cards"), ("items", JVal.arr items)]), [])
  | .verifyOptionSelection menuItemId optionSetId selectedOption =>
    (Except.ok (verifyOptionTool searchResults menuItemId optionSetId selectedOption), [])
  | .addToBasket menuItemId quantity optionSelections =>
    let validIds := cacheIds searchResults
    if validIds.length > 0
        && !(validIds.any (fun o =>
          match o with
          | some v => JVal.jsEq v (JVal.num menuItemId)
          | none => false)) then
      (Except.ok (JVal.obj [("error",
        JVal.str ("Invalid menuItemId. Valid IDs: " ++ joinVals ", " validIds))]), [])
    else
      let payload := BasketUpdate.add menuItemId (effQuantity quantity) optionSelections
      (match gw.updateBasketR payload with
       | .ok b => (Except.ok (basketToJson b), [GwCall.updateBasket payload])
       | .error e => (Except.error e, [GwCall.updateBasket payload]))
  | .removeFromBasket menuItemId quantity optionSelections =>
    (match gw.getBasketR with
     | .error e => (Except.error e, [GwCall.getBasket])
     | .ok basket =>
       let items := basket.basketMenuItems
       let item := items.find? (fun i => i.menuItemId == menuItemId)
       if (match item with
           | some it => it.quantity ≤ effQuantity quantity && items.length == 1
           | none => false) then
         match gw.clearBasketR with
         | .ok _ =>
           (Except.ok (JVal.obj [("status", JVal.num 200),
             ("message", JVal.str "Basket cleared")]), [GwCall.getBasket, GwCall.clearBasket])
         | .error e => (Except.error e, [GwCall.getBasket, GwCall.clearBasket])
       else
         let payload := BasketUpdate.remove menuItemId (effQuantity quantity) optionSelections
         (match gw.updateBasketR payload with
          | .ok b => (Except.ok (basketToJson b), [GwCall.getBasket, GwCall.updateBasket payload])
          | .error e => (Except.error e, [GwCall.getBasket, GwCall.updateBasket payload])))
  | .clearBasket =>
    (match gw.clearBasketR with
     | .ok _ =>
       (Except.ok (JVal.obj [("status", JVal.num 200),
         ("message", JVal.str "Basket cleared")]), [GwCall.clearBasket])
     | .error e => (Except.error e, [GwCall.clearBasket]))
  | .submitOrder =>
    (match token with
     | none =>
       (Except.ok (JVal.obj [("error", JVal.str "AUTHENTICATION_REQUIRED"),
         ("message", JVal.str "Please sign in to place your order.")]), [])
     | some _ =>
       match gw.submitOrderR with
       | .error e => (Except.error e, [GwCall.submitOrder])
       | .ok r =>
         if r.success then
           (Except.ok (JVal.obj [("status", JVal.num 200),
             ("data", JVal.obj ([("order", JVal.obj (optField "orderId" (r.orderId.map JVal.str)))]
               ++ optField "leadTimePrompt" (r.leadTimePrompt.map JVal.str)))]), [GwCall.submitOrder])
         else
           (Except.error { message := jsOr r.error "Order failed" }, [GwCall.submitOrder]))
  | .unknownTool n =>
    (Except.ok (JVal.obj [("error", JVal.str ("Unknown tool: " ++ n))]), [])

/-- Does one history message yield a search-result cache?  Mirrors the scan
body of `extractSearchResultsFromHistory`: a `tool`-role message whose content
parses as JSON with an array at `data.items` (raw text throws `JSON.parse`
and is skipped; empty content is falsy and skipped). -/
def toolJsonItems (m : Msg) : Option (List JVal) :=
  match m.role, m.content with
  | Role.tool, ContentV.json j =>
    match j.getPath ["data", "items"] with
    | some (JVal.arr xs) => some xs
    | _ => none
  | _, _ => none

/-- Backward scan (the input is the reversed history). -/
def extractFromReversed : List Msg → List JVal
  | [] => []
  | m :: rest =>
    match toolJsonItems m with
    | some xs => xs
    | none => extractFromReversed rest

/-- `ChatbotService.extractSearchResultsFromHistory`. -/
def extractSearchResultsFromHistory (messages : List Msg) : List JVal :=
  extractFromReversed messages.reverse

/-- Does this message set `authRequired` in `checkAuthStatus`?  Only a
JSON-field match exists for `AUTHENTICATION_REQUIRED` (the parse-failure
fallback checks solely for `TOKEN_EXPIRED`). -/
def msgAuthRequired (m : Msg) : Bool :=
  match m.role, m.content with
  | Role.tool, ContentV.json j =>
    match j.getField "error" with
    | some (JVal.str s) => s == "AUTHENTICATION_REQUIRED"
    | _ => false
  | _, _ => false

/-- Does this message set `tokenExpired` in `checkAuthStatus`?  JSON-field
match, with a substring fallback when the content fails to parse. -/
def msgTokenExpired (m : Msg) : Bool :=
  match m.role, m.content with
  | Role.tool, ContentV.json j =>
    match j.getField "error" with
    | some (JVal.str s) => s == "TOKEN_EXPIRED"
    | _ => false
  | Role.tool, ContentV.str s => hasSubstr s "TOKEN_EXPIRED"
  | _, _ => false

/-- `ChatbotService.checkAuthStatus` (authRequired, tokenExpired). -/
def checkAuthStatus (messages : List Msg) : Bool × Bool :=
  (messages.any msgAuthRequired, messages.any msgTokenExpired)

/-- The order-id fallback inside `buildOrderConfirmation`'s scan body. -/
def confirmOrderId (j : JVal) : Option String :=
  match j.getPath ["data", "order", "orderId"] with
  | some v =>
    if v.truthy then some ("Thanks! Your order has been placed.\nOrder ID: " ++ v.display)
    else none
  | none => none

/-- One message of `buildOrderConfirmation`'s backward scan: `some s` means
the loop returns `s`; `none` means it continues.  A truthy non-string
`leadTimePrompt` makes `normalizeLeadTimePrompt` throw inside the `try`,
which the `catch` turns into a continue. -/
def confirmStep (m : Msg) : Option String :=
  match m.role, m.content with
  | Role.tool, ContentV.json j =>
    (match j.getPath ["data", "leadTimePrompt"] with
     | some (JVal.str s) =>
       if s = "" then confirmOrderId j else some (normalizeLeadTimePrompt s)
     | some v => if v.truthy then none else confirmOrderId j
     | none => confirmOrderId j)
  | _, _ => none

/-- Backward scan (the input is the reversed message list). -/
def buildOrderConfirmationRev : List Msg → Option String
  | [] => none
  | m :: rest =>
    match confirmStep m with
    | some s => some s
    | none => buildOrderConfirmationRev rest

/-- `ChatbotService.buildOrderConfirmation`. -/
def buildOrderConfirmation (messages : List Msg) : Option String :=
  buildOrderConfirmationRev messages.reverse

/-- Backward scan of `getLastUserMessage` (input reversed). -/
def getLastUserMessageRev : List Msg → Option String
  | [] => none
  | m :: rest =>
    if m.role = Role.user then some m.content.asString else getLastUserMessageRev rest

/-- `ChatbotService.getLastUserMessage` (`content || ''` is the identity on
strings since falsy content is exactly the empty string). -/
def getLastUserMessage (messages : List Msg) : Option String :=
  getLastUserMessageRev messages.reverse

/-- The checkout-interceptor guard `lastUserMessage && isCheckoutIntent(...)`. -/
def isIntercept (messages : List Msg) : Bool :=
  match getLastUserMessage messages with
  | some s => s != "" && isCheckoutIntent s
  | none => false

/-- `ChatbotService.insertContextMessage`. -/
def insertContextMessage (messages : List Msg) (context : Option Msg) : List Msg :=
  match context with
  | none => messages
  | some ctx =>
    match messages with
    | [] => [ctx]
    | m :: rest => if m.role = Role.system then m :: ctx :: rest else ctx :: messages

/-- `toFixed(2)` on an integral amount. -/
def fix2 (n : Int) : String := toString n ++ ".00"

/-- `ChatbotService.formatBasketContext`. -/
def formatBasketContext (b : Basket) : Msg :=
  let items := b.basketMenuItems
  let total := b.totalPrice.getD 0
  let lines := items.map (fun item =>
    "- " ++ toString item.quantity ++ " x " ++ item.name ++ " ("
      ++ fix2 ((item.totalPrice.orElse (fun _ => item.unitPrice)).getD 0) ++ " EUR)")
  let summary :=
    if lines.length > 0 then String.intercalate "\n" lines ++ "\nTotal: " ++ fix2 total ++ " EUR"
    else "Basket is empty."
  { role := Role.system, content := ContentV.str ("Basket context (read-only):\n" ++ summary) }

/-- `ChatbotService.loadBasketContext`: the ephemeral context message and the
basket, or `(none, none)` when the gateway read throws (caught and logged). -/
def basketContextOf (gw : Gateway) : Option Msg × Option Basket :=
  match gw.getBasketR with
  | .ok b => (some (formatBasketContext b), some b)
  | .error _ => (none, none)

/-- The state threaded through the tool-execution loop of `chat`. -/
structure LoopSt where
  resultsMsgs : List Msg
  searchResults : List JVal
  newSearchResults : List JVal
  searchMenuCalled : Bool
  showItemsCalled : Bool
  orderSubmitted : Bool
  orderId : Option String
  leadTimePrompt : Option String
  gwCalls : List GwCall

/-- The loop's fresh-search update: `some xs` exactly when the call was a
`search_menu` whose (non-thrown) result carries `data.items` (the tracking
`if` sits inside the `try`, so a thrown call never updates the cache). -/
def freshItems (er1 : Except ApiErr JVal) (isSearch : Bool) : Option (List JVal) :=
  if isSearch then
    match er1 with
    | .ok j =>
      (match j.getPath ["data", "items"] with
       | some (JVal.arr xs) => some xs
       | _ => none)
    | .error _ => none
  else none

/-- `result?.status === 200` on the (non-thrown) tool result; a thrown call's
`handleToolError` substitute never carries a `status` field. -/
def submitStatusOk (er1 : Except ApiErr JVal) : Bool :=
  match er1 with
  | .ok j =>
    (match j.getField "status" with
     | some (JVal.num n) => n == 200
     | _ => false)
  | .error _ => false

/-- The tool-call result as recorded into the conversation: the executed
value, or the `handleToolError` conversion of a thrown error. -/
def toolResultOf (gw : Gateway) (token : Option String) (args : ToolArgs)
    (cache : List JVal) : JVal :=
  match (executeTool gw token args cache).1 with
  | .ok j => j
  | .error e => handleToolError e

/-- The `tool`-role message pushed for one executed call. -/
def toolResultMsg (id : String) (r : JVal) : Msg :=
  { role := Role.tool, content := ContentV.json r, tool_call_id := some id }

/-- One iteration of the tool-execution loop of `chat`: set the
search/show flags, execute the tool (converting a thrown error via
`handleToolError`), track fresh search results and a successful
`submit_order`, and append the tool-result message and gateway-call log. -/
def stepTool (gw : Gateway) (token : Option String) (st : LoopSt) (tc : ToolCall) : LoopSt :=
  let name := tc.args.toolName
  let er := executeTool gw token tc.args st.searchResults
  let result := toolResultOf gw token tc.args st.searchResults
  let fresh := freshItems er.1 (name == "search_menu")
  let subOk := (name == "submit_order") && submitStatusOk er.1
  { resultsMsgs := st.resultsMsgs ++ [toolResultMsg tc.id result],
    searchResults := fresh.getD st.searchResults,
    newSearchResults := fresh.getD st.newSearchResults,
    searchMenuCalled := st.searchMenuCalled || name == "search_menu",
    showItemsCalled := st.showItemsCalled || name == "show_items",
    orderSubmitted := st.orderSubmitted || subOk,
    orderId := if subOk then
        (match result.getPath ["data", "order", "orderId"] with
         | some (JVal.str s) => some s
         | _ => none)
      else st.orderId,
    leadTimePrompt := if subOk then
        (match result.getPath ["data", "leadTimePrompt"] with
         | some (JVal.str s) => some s
         | _ => none)
      else st.leadTimePrompt,
    gwCalls := st.gwCalls ++ er.2 }

/-- The loop's initial state for a turn. -/
def chatLoopInit (tn : Turn) : LoopSt :=
  { resultsMsgs := [], searchResults := extractSearchResultsFromHistory tn.messages,
    newSearchResults := [], searchMenuCalled := false, showItemsCalled := false,
    orderSubmitted := false, orderId := none, leadTimePrompt := none, gwCalls := [] }

/-- The loop state after executing all round-1 tool calls. -/
def chatLoopState (gw : Gateway) (tn : Turn) : LoopSt :=
  tn.round1ToolCalls.foldl (stepTool gw tn.token) (chatLoopInit tn)

/-- The auto-injection guard:
`searchMenuCalled && !showItemsCalled && newSearchResults.length > 0`. -/
def injectTriggered (gw : Gateway) (tn : Turn) : Bool :=
  let st := chatLoopState gw tn
  st.searchMenuCalled && !st.showItemsCalled && st.newSearchResults.length > 0

/-- The synthesized `show_items` tool call (arguments: the freshly searched
item ids; an item without a numeric id serializes its slot as JSON null). -/
def syntheticShowItemsCall (gw : Gateway) (tn : Turn) : ToolCall :=
  { id := "call_auto_show_items",
    args := ToolArgs.showItems (some ((chatLoopState gw tn).newSearchResults.map
      (fun item => (item.getField "menuItemId").getD JVal.null))) }

/-- The synthesized `show_items` tool-result message: all freshly searched
items, verbatim. -/
def syntheticShowItemsMsg (gw : Gateway) (tn : Turn) : Msg :=
  { role := Role.tool, tool_call_id := some "call_auto_show_items",
    content := ContentV.json (JVal.obj [("status", JVal.num 200),
      ("displayType", JVal.str "menu_cards"),
      ("items", JVal.arr (chatLoopState gw tn).newSearchResults)]) }

/-- The round-1 assistant message's final tool-call list (the auto-injection
pushes onto the same array the response and the returned `toolCalls` alias). -/
def outToolCalls (gw : Gateway) (tn : Turn) : List ToolCall :=
  tn.round1ToolCalls ++ (if injectTriggered gw tn then [syntheticShowItemsCall gw tn] else [])

/-- The round-1 assistant message as persisted into the new history. -/
def round1AssistantMsg (gw : Gateway) (tn : Turn) : Msg :=
  { role := Role.assistant, content := ContentV.str tn.round1Content,
    tool_calls := outToolCalls gw tn }

/-- `functionMessages` after the loop and auto-injection: persisted history,
the assistant message, every tool result, then the synthetic result if any. -/
def functionMessagesOf (gw : Gateway) (tn : Turn) : List Msg :=
  tn.messages ++ [round1AssistantMsg gw tn] ++ (chatLoopState gw tn).resultsMsgs
    ++ (if injectTriggered gw tn then [syntheticShowItemsMsg gw tn] else [])

/-- `authRequired || tokenExpired || submittedOrderCall`: the guard that
skips the second completion round. -/
def terminalCond (gw : Gateway) (tn : Turn) : Bool :=
  let flags := checkAuthStatus (functionMessagesOf gw tn)
  flags.1 || flags.2
    || (outToolCalls gw tn).any (fun c => c.args.toolName == "submit_order")

/-- The final assistant message of the terminal (no-round-2) path:
`buildOrderConfirmation(functionMessages) || ''`. -/
def terminalFinalMsg (gw : Gateway) (tn : Turn) : Msg :=
  { role := Role.assistant,
    content := ContentV.str ((buildOrderConfirmation (functionMessagesOf gw tn)).getD "") }

/-- The final assistant message of the round-2 path: the model's text, with
the synthesized confirmation substituted when that text is blank. -/
def round2FinalMsg (gw : Gateway) (tn : Turn) : Msg :=
  { role := Role.assistant,
    content := ContentV.str
      (if tn.round2Content.trim == ""
          && (buildOrderConfirmation (functionMessagesOf gw tn)).isSome then
        (buildOrderConfirmation (functionMessagesOf gw tn)).getD ""
      else tn.round2Content) }

/-- The final assistant message of the tool path. -/
def chatFinalMsg (gw : Gateway) (tn : Turn) : Msg :=
  if terminalCond gw tn then terminalFinalMsg gw tn else round2FinalMsg gw tn

/-- The full outcome of the tool-executing path of `chat` (both the terminal
short-circuit and the round-2 variant). -/
def chatToolPathOut (gw : Gateway) (tn : Turn) : ChatOut :=
  let st := chatLoopState gw tn
  let fm := functionMessagesOf gw tn
  let flags := checkAuthStatus fm
  let finalMessage := chatFinalMsg gw tn
  { result := { message := finalMessage,
                toolCalls := some (outToolCalls gw tn),
                allMessages := some (fm ++ [finalMessage]),
                authRequired := some flags.1, tokenExpired := some flags.2,
                orderSubmitted := some st.orderSubmitted, orderId := st.orderId,
                leadTimePrompt := st.leadTimePrompt },
    gwCalls := [GwCall.getBasket] ++ st.gwCalls
      ++ (if terminalCond gw tn then [] else [GwCall.getBasket]),
    completionSends := [insertContextMessage tn.messages (basketContextOf gw).1]
      ++ (if terminalCond gw tn then []
          else [insertContextMessage fm (basketContextOf gw).1]) }

/-- The interceptor's confirmation text:
`leadTimePrompt ? normalize(...) : orderId ? "Thanks..." : ''`. -/
def interceptConfirmation (r : OrderRes) : String :=
  match r.leadTimePrompt with
  | some p => if p = "" then
      (match r.orderId with
       | some oid => if oid = "" then "" else "Thanks! Your order has been placed.\nOrder ID: " ++ oid
       | none => "")
    else normalizeLeadTimePrompt p
  | none =>
    match r.orderId with
    | some oid => if oid = "" then "" else "Thanks! Your order has been placed.\nOrder ID: " ++ oid
    | none => ""

/-- The checkout-interceptor path of `chat` (a thrown `submitOrder` gateway
error propagates out of `chat`, hence the `Except`). -/
def interceptPath (gw : Gateway) (tn : Turn) : Except ApiErr ChatOut :=
  match tn.token with
  | none =>
    Except.ok { result := { message := { role := Role.assistant, content := ContentV.str "" },
                            authRequired := some true, tokenExpired := some false },
                gwCalls := [GwCall.getBasket], completionSends := [] }
  | some _ =>
    if (match (basketContextOf gw).2 with
        | some b => b.basketMenuItems.isEmpty
        | none => true) then
      let emptyMsg : Msg :=
        { role := Role.assistant,
          content := ContentV.str "Your basket is empty. Please add items first." }
      Except.ok { result := { message := emptyMsg },
                  gwCalls := [GwCall.getBasket], completionSends := [] }
    else
      match gw.submitOrderR with
      | .error e => Except.error e
      | .ok r =>
        if !r.success then
          let failMsg : Msg :=
            { role := Role.assistant, content := ContentV.str (jsOr r.error "Order failed.") }
          Except.ok { result := { message := failMsg },
                      gwCalls := [GwCall.getBasket, GwCall.submitOrder], completionSends := [] }
        else
          let okMsg : Msg :=
            { role := Role.assistant, content := ContentV.str (interceptConfirmation r) }
          Except.ok { result := { message := okMsg,
                                  orderSubmitted := some true, orderId := r.orderId,
                                  leadTimePrompt := r.leadTimePrompt },
                      gwCalls := [GwCall.getBasket, GwCall.submitOrder], completionSends := [] }

/-- `ChatbotService.chat`: one turn of the orchestration engine. -/
def chat (gw : Gateway) (tn : Turn) : Except ApiErr ChatOut :=
  if isIntercept tn.messages then interceptPath gw tn
  else if tn.round1ToolCalls.isEmpty then
    let directMsg : Msg := { role := Role.assistant, content := ContentV.str tn.round1Content }
    Except.ok { result := { message := directMsg },
                gwCalls := [GwCall.getBasket],
                completionSends := [insertContextMessage tn.messages (basketContextOf gw).1] }
  else Except.ok (chatToolPathOut gw tn)

/-! ## Concrete fixtures for witnesses and counterexamples -/

/-- An empty basket. -/
def emptyBasket : Basket := { basketMenuItems := [], totalPrice := some 0 }

/-- A benign gateway stub. -/
def gwStub : Gateway :=
  { getBasketR := Except.ok emptyBasket,
    searchMenuR := fun _ => Except.ok [],
    updateBasketR := fun _ => Except.ok emptyBasket,
    clearBasketR := Except.ok (),
    submitOrderR := Except.ok { success := true, orderId := some "42" } }

/-- A cached menu item with id 5. -/
def item5 : JVal :=
  JVal.obj [("menuItemId", JVal.num 5), ("name", JVal.str "Margherita")]

/-- A gateway whose menu search finds `item5`. -/
def gwSearch5 : Gateway := { gwStub with searchMenuR := fun _ => Except.ok [item5] }

/-- A turn that searches the menu without showing items. -/
def tnSearchOnly : Turn :=
  { messages := [{ role := Role.user, content := ContentV.str "show me pizzas" }],
    token := none, round1Content := "",
    round1ToolCalls := [{ id := "c1", args := ToolArgs.searchMenu ["pizza"] }],
    round2Content := "Here are the pizzas" }

/-- A persisted-history tool result from an earlier turn that still carries a
lead-time prompt. -/
def msgOldLead : Msg :=
  { role := Role.tool, tool_call_id := some "t0",
    content := ContentV.json (JVal.obj [("data",
      JVal.obj [("leadTimePrompt", JVal.str "Tell the user: \"Old news\"")])]) }

/-- A turn whose only round-1 call is an unauthenticated `submit_order`
(terminal, with no lead-time prompt or order id in this round's results),
run over a history that still contains `msgOldLead`. -/
def tnStaleConfirm : Turn :=
  { messages := [{ role := Role.user, content := ContentV.str "hello" }, msgOldLead],
    token := none, round1Content := "",
    round1ToolCalls := [{ id := "c1", args := ToolArgs.submitOrder }],
    round2Content := "r2" }

/-- A gateway whose order submission succeeds with a decorated lead-time
prompt. -/
def pizzaOrderRes : OrderRes :=
  { success := true, orderId := some "42",
    leadTimePrompt := some "Tell the user: \"Your pizza arrives in 20 minutes\"" }

def gwPizza : Gateway := { gwStub with submitOrderR := Except.ok pizzaOrderRes }

/-- A turn whose only tool call is an authenticated, successful
`submit_order`. -/
def tnPizza : Turn :=
  { messages := [{ role := Role.user, content := ContentV.str "hi" }],
    token := some "tok", round1Content := "",
    round1ToolCalls := [{ id := "c1", args := ToolArgs.submitOrder }],
    round2Content := "unused" }

/-- The exact outcome of the unauthenticated checkout interception: empty
assistant text, `authRequired=true`, no completion call, no tool execution and
a gateway log consisting solely of the basket-context `getBasket` read. -/
def authRequiredOut : ChatOut :=
  { result := { message := { role := Role.assistant, content := ContentV.str "" },
                authRequired := some true, tokenExpired := some false },
    gwCalls := [GwCall.getBasket], completionSends := [] }

/-- A checkout-intent turn with no token. -/
def tnPlaceOrder : Turn :=
  { messages := [{ role := Role.user, content := ContentV.str "place order" }],
    token := none, round1Content := "", round1ToolCalls := [], round2Content := "" }

/-- Another checkout-intent, token-less turn (verb "buy"). -/
def tnBuy : Turn :=
  { messages := [{ role := Role.user, content := ContentV.str "buy a pizza" }],
    token := none, round1Content := "", round1ToolCalls := [], round2Content := "" }

/-- A one-item cache (only valid id: 5). -/
def cacheC4 : List JVal := [item5]

/-- A history whose first message is a user message and whose system message
comes second. -/
def userHi : Msg := { role := Role.user, content := ContentV.str "hi" }

def sysMsgS : Msg := { role := Role.system, content := ContentV.str "S" }

/-- The basket-context message for an empty basket. -/
def ctxEmptyBasket : Msg := formatBasketContext emptyBasket

/-- A turn over the `[user, system]` history, answered without tool calls. -/
def tnUserSys : Turn :=
  { messages := [userHi, sysMsgS], token := none, round1Content := "ok",
    round1ToolCalls := [], round2Content := "" }

/-- A basket holding a single line: two units of item 5. -/
def lineB5 : BasketLine := { menuItemId := 5, name := "Margherita", quantity := 2 }

def gwOneLine : Gateway :=
  { gwStub with getBasketR := Except.ok { basketMenuItems := [lineB5], totalPrice := some 10 } }

/-- A tool result whose content is raw (unparseable) text naming the
`AUTHENTICATION_REQUIRED` sentinel. -/
def msgRawAuth : Msg :=
  { role := Role.tool, tool_call_id := some "x",
    content := ContentV.str "error: AUTHENTICATION_REQUIRED (raw, not JSON)" }

/-- A tool result whose content is raw text naming `TOKEN_EXPIRED`. -/
def msgRawToken : Msg :=
  { role := Role.tool, tool_call_id := some "x",
    content := ContentV.str "error: TOKEN_EXPIRED (raw, not JSON)" }

/-! ## Helper lemmas about the tool loop -/

theorem stepTool_searchMenuCalled (gw : Gateway) (token : Option String) (st : LoopSt)
    (tc : ToolCall) :
    (stepTool gw token st tc).searchMenuCalled
      = (st.searchMenuCalled || tc.args.toolName == "search_menu") := rfl

theorem stepTool_showItemsCalled (gw : Gateway) (token : Option String) (st : LoopSt)
    (tc : ToolCall) :
    (stepTool gw token st tc).showItemsCalled
      = (st.showItemsCalled || tc.args.toolName == "show_items") := rfl

theorem loop_searchMenuCalled (gw : Gateway) (token : Option String) :
    ∀ (tcs : List ToolCall) (st : LoopSt),
      (tcs.foldl (stepTool gw token) st).searchMenuCalled
        = (st.searchMenuCalled || tcs.any (fun c => c.args.toolName == "search_menu"))
  | [], st => by simp
  | tc :: tcs, st => by
    rw [List.foldl_cons, loop_searchMenuCalled gw token tcs, stepTool_searchMenuCalled]
    simp [Bool.or_assoc]

theorem loop_showItemsCalled (gw : Gateway) (token : Option String) :
    ∀ (tcs : List ToolCall) (st : LoopSt),
      (tcs.foldl (stepTool gw token) st).showItemsCalled
        = (st.showItemsCalled || tcs.any (fun c => c.args.toolName == "show_items"))
  | [], st => by simp
  | tc :: tcs, st => by
    rw [List.foldl_cons, loop_showItemsCalled gw token tcs, stepTool_showItemsCalled]
    simp [Bool.or_assoc]

theorem loop_resultsMsgs_shape (gw : Gateway) (token : Option String) :
    ∀ (tcs : List ToolCall) (st : LoopSt),
      ∀ m ∈ (tcs.foldl (stepTool gw token) st).resultsMsgs,
        m ∈ st.resultsMsgs ∨ (m.role = Role.tool ∧ ∃ tc ∈ tcs, m.tool_call_id = some tc.id)
  | [], st => by simp
  | tc :: tcs, st => by
    intro m hm
    rcases loop_resultsMsgs_shape gw token tcs (stepTool gw token st tc) m hm with h | ⟨hr, c, hc, hid⟩
    · rcases List.mem_append.mp h with h' | h'
      · exact Or.inl h'
      · refine Or.inr ⟨?_, tc, List.mem_cons_self _ _, ?_⟩
        · simp only [List.mem_singleton] at h'
          rw [h']
          rfl
        · simp only [List.mem_singleton] at h'
          rw [h']
          rfl
    · exact Or.inr ⟨hr, c, List.mem_cons_of_mem _ hc, hid⟩

/-! ## Tool results and the search-result cache -/

theorem handleToolError_getField_data (e : ApiErr) :
    (handleToolError e).getField "data" = none := by
  unfold handleToolError
  repeat' split
  all_goals rfl

theorem basketToJson_getField_data (b : Basket) :
    (basketToJson b).getField "data" = none := by
  cases b with
  | mk items tp => cases tp <;> rfl

theorem verifyOptionTool_getField_data (cache : List JVal) (mid : Int) (osid oname : String) :
    (verifyOptionTool cache mid osid oname).getField "data" = none := by
  unfold verifyOptionTool
  repeat' split
  all_goals rfl

/-- The `data.items` view of a tool result coincides with the loop's
fresh-search tracking: only a successful `search_menu` result exposes an
array at `data.items`. -/
theorem execute_result_items (gw : Gateway) (token : Option String) (args : ToolArgs)
    (cache : List JVal) :
    (match (match (executeTool gw token args cache).1 with
            | .ok j => j
            | .error e => handleToolError e).getPath ["data", "items"] with
     | some (JVal.arr xs) => some xs
     | _ => none)
      = freshItems (executeTool gw token args cache).1 (args.toolName == "search_menu") := by
  cases args with
  | searchMenu terms =>
    simp only [executeTool]
    cases hr : gw.searchMenuR terms.head? with
    | ok items => rfl
    | error e =>
      simp only [freshItems, ToolArgs.toolName]
      simp [JVal.getPath, handleToolError_getField_data e]
  | showItems ids => rfl
  | verifyOptionSelection mid osid oname =>
    simp only [executeTool, freshItems, ToolArgs.toolName]
    simp [JVal.getPath, verifyOptionTool_getField_data]
  | addToBasket mid q osel =>
    simp only [executeTool]
    split_ifs with hv
    · rfl
    · cases hr : gw.updateBasketR (BasketUpdate.add mid (effQuantity q) osel) with
      | ok b =>
        dsimp only
        simp only [freshItems, ToolArgs.toolName]
        simp [JVal.getPath, basketToJson_getField_data]
      | error e =>
        dsimp only
        simp only [freshItems, ToolArgs.toolName]
        simp [JVal.getPath, handleToolError_getField_data e]
  | removeFromBasket mid q osel =>
    simp only [executeTool]
    cases hb : gw.getBasketR with
    | error e =>
      dsimp only
      simp only [freshItems, ToolArgs.toolName]
      simp [JVal.getPath, handleToolError_getField_data e]
    | ok basket =>
      dsimp only
      split_ifs with hcond
      · cases hc : gw.clearBasketR with
        | ok u => rfl
        | error e =>
          dsimp only
          simp only [freshItems, ToolArgs.toolName]
          simp [JVal.getPath, handleToolError_getField_data e]
      · cases hr : gw.updateBasketR (BasketUpdate.remove mid (effQuantity q) osel) with
        | ok b =>
          dsimp only
          simp only [freshItems, ToolArgs.toolName]
          simp [JVal.getPath, basketToJson_getField_data]
        | error e =>
          dsimp only
          simp only [freshItems, ToolArgs.toolName]
          simp [JVal.getPath, handleToolError_getField_data e]
  | clearBasket =>
    simp only [executeTool]
    cases hc : gw.clearBasketR with
    | ok u => rfl
    | error e =>
      simp only [freshItems, ToolArgs.toolName]
      simp [JVal.getPath, handleToolError_getField_data e]
  | submitOrder =>
    simp only [executeTool]
    cases token with
    | none => rfl
    | some t =>
      cases hr : gw.submitOrderR with
      | error e =>
        simp only [freshItems, ToolArgs.toolName]
        simp [JVal.getPath, handleToolError_getField_data e]
      | ok r =>
        by_cases hs : r.success
        · simp only [hs, if_true]
          cases hl : r.leadTimePrompt <;> cases ho : r.orderId <;>
            simp [freshItems, ToolArgs.toolName, JVal.getPath, JVal.getField, optField]
        · simp only [hs, if_neg]
          simp only [freshItems, ToolArgs.toolName]
          simp [hs, JVal.getPath, handleToolError_getField_data]
  | unknownTool n =>
    simp only [executeTool, freshItems, ToolArgs.toolName]
    split
    all_goals simp_all [JVal.getPath, JVal.getField]

theorem extractFromReversed_cons_none (m : Msg) (rest : List Msg)
    (h : toolJsonItems m = none) :
    extractFromReversed (m :: rest) = extractFromReversed rest := by
  simp [extractFromReversed, h]

theorem extractFromReversed_cons_some (m : Msg) (rest : List Msg) (xs : List JVal)
    (h : toolJsonItems m = some xs) :
    extractFromReversed (m :: rest) = xs := by
  simp [extractFromReversed, h]

/-- One loop iteration preserves the extraction invariant: the backward scan
over the accumulated tool results (then the fixed tail) recomputes exactly
the loop's current search-result cache. -/
theorem extract_stepTool (gw : Gateway) (token : Option String) (st : LoopSt) (tc : ToolCall)
    (base : List Msg)
    (h : extractFromReversed (st.resultsMsgs.reverse ++ base) = st.searchResults) :
    extractFromReversed ((stepTool gw token st tc).resultsMsgs.reverse ++ base)
      = (stepTool gw token st tc).searchResults := by
  have hitems := execute_result_items gw token tc.args st.searchResults
  have hmsgs : (stepTool gw token st tc).resultsMsgs
      = st.resultsMsgs
        ++ [toolResultMsg tc.id (toolResultOf gw token tc.args st.searchResults)] := rfl
  have hsr : (stepTool gw token st tc).searchResults
      = (freshItems (executeTool gw token tc.args st.searchResults).1
          (tc.args.toolName == "search_menu")).getD st.searchResults := rfl
  rw [hmsgs, hsr, List.reverse_append, List.reverse_singleton, List.singleton_append,
    List.cons_append]
  cases hf : freshItems (executeTool gw token tc.args st.searchResults).1
      (tc.args.toolName == "search_menu") with
  | none =>
    rw [hf] at hitems
    rw [extractFromReversed_cons_none _ _ ?hn]
    · simpa using h
    case hn =>
      show toolJsonItems _ = none
      simpa [toolJsonItems, toolResultMsg, toolResultOf] using hitems
  | some xs =>
    rw [hf] at hitems
    rw [extractFromReversed_cons_some _ _ xs ?hs]
    · rfl
    case hs =>
      show toolJsonItems _ = some xs
      simpa [toolJsonItems, toolResultMsg, toolResultOf] using hitems

/-- The extraction invariant holds after the whole loop. -/
theorem extract_loop (gw : Gateway) (token : Option String) :
    ∀ (tcs : List ToolCall) (st : LoopSt) (base : List Msg),
      extractFromReversed (st.resultsMsgs.reverse ++ base) = st.searchResults →
      extractFromReversed ((tcs.foldl (stepTool gw token) st).resultsMsgs.reverse ++ base)
        = (tcs.foldl (stepTool gw token) st).searchResults
  | [], _, _, h => h
  | tc :: tcs, st, base, h =>
    extract_loop gw token tcs (stepTool gw token st tc) base
      (extract_stepTool gw token st tc base h)

/-! ## The branch structure of `chat` -/

/-- Every `ok` outcome of `chat` is either the full tool-executing path, or
one of the early returns, none of which carries an `allMessages` history. -/
theorem chat_shape (gw : Gateway) (tn : Turn) (o : ChatOut)
    (hok : chat gw tn = Except.ok o) :
    (o = chatToolPathOut gw tn ∧ isIntercept tn.messages = false
      ∧ tn.round1ToolCalls ≠ [])
    ∨ (o.result.allMessages = none ∧ o.result.toolCalls = none) := by
  by_cases hi : isIntercept tn.messages
  · right
    simp only [chat, hi, if_true] at hok
    unfold interceptPath at hok
    cases htok : tn.token with
    | none =>
      rw [htok] at hok
      dsimp only at hok
      simp only [Except.ok.injEq] at hok
      rw [← hok]
      exact ⟨rfl, rfl⟩
    | some t =>
      rw [htok] at hok
      dsimp only at hok
      split_ifs at hok with hempty
      · simp only [Except.ok.injEq] at hok
        rw [← hok]
        exact ⟨rfl, rfl⟩
      · cases hsub : gw.submitOrderR with
        | error e => rw [hsub] at hok; dsimp only at hok; cases hok
        | ok r =>
          rw [hsub] at hok
          dsimp only at hok
          split_ifs at hok with hfail
          · simp only [Except.ok.injEq] at hok
            rw [← hok]
            exact ⟨rfl, rfl⟩
          · simp only [Except.ok.injEq] at hok
            rw [← hok]
            exact ⟨rfl, rfl⟩
  · cases htc : tn.round1ToolCalls with
    | nil =>
      right
      simp only [chat, hi, if_false, Bool.false_eq_true, htc, List.isEmpty_nil, if_true] at hok
      simp only [Except.ok.injEq] at hok
      rw [← hok]
      exact ⟨rfl, rfl⟩
    | cons c cs =>
      left
      simp only [chat, hi, if_false, Bool.false_eq_true, htc, List.isEmpty_cons] at hok
      simp only [Except.ok.injEq] at hok
      refine ⟨hok.symm, by simpa using hi, ?_⟩
      simp

/-- When not intercepted and there are tool calls, `chat` returns the tool
path outcome. -/
theorem chat_toolPath (gw : Gateway) (tn : Turn)
    (hi : isIntercept tn.messages = false) (htc : tn.round1ToolCalls ≠ []) :
    chat gw tn = Except.ok (chatToolPathOut gw tn) := by
  cases hl : tn.round1ToolCalls with
  | nil => exact absurd hl htc
  | cons c cs => simp [chat, hi, hl]

theorem toolJsonItems_round1Assistant (gw : Gateway) (tn : Turn) :
    toolJsonItems (round1AssistantMsg gw tn) = none := rfl

theorem toolJsonItems_synthetic (gw : Gateway) (tn : Turn) :
    toolJsonItems (syntheticShowItemsMsg gw tn) = none := rfl

theorem toolJsonItems_chatFinalMsg (gw : Gateway) (tn : Turn) :
    toolJsonItems (chatFinalMsg gw tn) = none := by
  unfold chatFinalMsg
  split <;> rfl

theorem extract_functionMessages (gw : Gateway) (tn : Turn) :
    extractFromReversed (functionMessagesOf gw tn).reverse
      = (chatLoopState gw tn).searchResults := by
  have hbase : extractFromReversed (([] : List Msg).reverse
      ++ (round1AssistantMsg gw tn :: tn.messages.reverse))
      = (chatLoopInit tn).searchResults := by
    rw [List.reverse_nil, List.nil_append,
      extractFromReversed_cons_none _ _ (toolJsonItems_round1Assistant gw tn)]
    rfl
  have hloop := extract_loop gw tn.token tn.round1ToolCalls (chatLoopInit tn)
    (round1AssistantMsg gw tn :: tn.messages.reverse) hbase
  unfold functionMessagesOf
  by_cases hinj : injectTriggered gw tn
  · simp only [hinj, if_true, List.reverse_append, List.reverse_singleton, List.reverse_cons,
      List.reverse_nil, List.nil_append, List.cons_append, List.singleton_append,
      List.append_assoc]
    rw [extractFromReversed_cons_none _ _ (toolJsonItems_synthetic gw tn)]
    exact hloop
  · simp only [hinj, if_false, Bool.false_eq_true, List.append_nil, List.reverse_append,
      List.reverse_singleton, List.reverse_cons, List.reverse_nil, List.nil_append,
      List.cons_append, List.singleton_append, List.append_assoc]
    exact hloop

/-! ## C6 -/

/-- C6: round-trip of the Search Result Cache.  For every turn that executed
tool calls (`allMessages` present), re-running the backward scan
`extractSearchResultsFromHistory` on the returned `allMessages` reconstructs
exactly the cache the turn held at the end of its round. -/
theorem search_cache_roundtrip (gw : Gateway) (tn : Turn) (o : ChatOut) (am : List Msg)
    (hok : chat gw tn = Except.ok o) (ham : o.result.allMessages = some am) :
    extractSearchResultsFromHistory am = (chatLoopState gw tn).searchResults := by
  rcases chat_shape gw tn o hok with ⟨ho, hi, htc⟩ | hnone
  · subst ho
    have ham2 : (some (functionMessagesOf gw tn ++ [chatFinalMsg gw tn]) : Option (List Msg))
        = some am := ham
    rw [← Option.some.inj ham2]
    unfold extractSearchResultsFromHistory
    rw [List.reverse_append, List.reverse_singleton, List.singleton_append,
      extractFromReversed_cons_none _ _ (toolJsonItems_chatFinalMsg gw tn)]
    exact extract_functionMessages gw tn
  · rw [hnone.1] at ham
    cases ham

/-- Witness for C6 at a concrete searching turn. -/
theorem search_cache_roundtrip_witness :
    ∃ o am, chat gwSearch5 tnSearchOnly = Except.ok o ∧ o.result.allMessages = some am ∧
      extractSearchResultsFromHistory am = (chatLoopState gwSearch5 tnSearchOnly).searchResults ∧
      (chatLoopState gwSearch5 tnSearchOnly).searchResults = [item5] :=
  ⟨chatToolPathOut gwSearch5 tnSearchOnly,
   functionMessagesOf gwSearch5 tnSearchOnly ++ [chatFinalMsg gwSearch5 tnSearchOnly],
   rfl, rfl,
   search_cache_roundtrip gwSearch5 tnSearchOnly _ _ rfl rfl, rfl⟩

/-! ## C1 -/

theorem chatLoopState_searchMenuCalled (gw : Gateway) (tn : Turn) :
    (chatLoopState gw tn).searchMenuCalled
      = tn.round1ToolCalls.any (fun c => c.args.toolName == "search_menu") := by
  unfold chatLoopState
  rw [loop_searchMenuCalled]
  rfl

theorem chatLoopState_showItemsCalled (gw : Gateway) (tn : Turn) :
    (chatLoopState gw tn).showItemsCalled
      = tn.round1ToolCalls.any (fun c => c.args.toolName == "show_items") := by
  unfold chatLoopState
  rw [loop_showItemsCalled]
  rfl

/-- C1: auto-injection of `show_items`.  In a turn that reaches the tool loop
(ids of history and round-1 calls do not use the reserved synthetic id):
if some round-1 call is a `search_menu`, none is a `show_items`, and the
fresh search produced at least one item, then the returned tool-call list is
the model's list plus the synthesized `show_items` call over exactly the
freshly-searched item ids, and the returned history contains the matching
synthesized tool-result message carrying exactly the fresh items; if a
`show_items` was called, or the fresh search produced no items, nothing is
injected. -/
theorem auto_inject_show_items (gw : Gateway) (tn : Turn) (o : ChatOut)
    (hok : chat gw tn = Except.ok o)
    (hi : isIntercept tn.messages = false) (htc : tn.round1ToolCalls ≠ [])
    (hres : ∀ m ∈ tn.messages, m.tool_call_id ≠ some "call_auto_show_items")
    (hids : ∀ tc ∈ tn.round1ToolCalls, tc.id ≠ "call_auto_show_items") :
    ((tn.round1ToolCalls.any (fun c => c.args.toolName == "search_menu")) = true
        ∧ (∀ c ∈ tn.round1ToolCalls, c.args.toolName ≠ "show_items")
        ∧ (chatLoopState gw tn).newSearchResults ≠ [] →
      o.result.toolCalls = some (tn.round1ToolCalls ++ [syntheticShowItemsCall gw tn])
        ∧ (syntheticShowItemsCall gw tn).args = ToolArgs.showItems (some
            ((chatLoopState gw tn).newSearchResults.map
              (fun item => (item.getField "menuItemId").getD JVal.null)))
        ∧ (∃ am, o.result.allMessages = some am ∧ syntheticShowItemsMsg gw tn ∈ am)
        ∧ (syntheticShowItemsMsg gw tn).content = ContentV.json (JVal.obj
            [("status", JVal.num 200), ("displayType", JVal.str "menu_cards"),
             ("items", JVal.arr (chatLoopState gw tn).newSearchResults)]))
    ∧ (((∃ c ∈ tn.round1ToolCalls, c.args.toolName = "show_items")
        ∨ (chatLoopState gw tn).newSearchResults = []) →
      o.result.toolCalls = some tn.round1ToolCalls
        ∧ ∀ am, o.result.allMessages = some am →
            ∀ m ∈ am, m.tool_call_id ≠ some "call_auto_show_items") := by
  have hchat := chat_toolPath gw tn hi htc
  rw [hok] at hchat
  have ho : o = chatToolPathOut gw tn := Except.ok.inj hchat
  subst ho
  constructor
  · rintro ⟨hsearch, hnoshow, hfresh⟩
    have hshowfalse : (chatLoopState gw tn).showItemsCalled = false := by
      rw [chatLoopState_showItemsCalled]
      simp only [List.any_eq_false]
      intro c hc
      simpa using hnoshow c hc
    have hinj : injectTriggered gw tn = true := by
      unfold injectTriggered
      dsimp only
      rw [chatLoopState_searchMenuCalled, hsearch, hshowfalse]
      simpa using List.length_pos.mpr hfresh
    refine ⟨?_, rfl, ⟨functionMessagesOf gw tn ++ [chatFinalMsg gw tn], rfl, ?_⟩, rfl⟩
    · show some (outToolCalls gw tn) = _
      unfold outToolCalls
      rw [hinj]
      simp
    · apply List.mem_append_left
      unfold functionMessagesOf
      rw [hinj]
      simp
  · intro hcase
    have hinj : injectTriggered gw tn = false := by
      unfold injectTriggered
      dsimp only
      rcases hcase with ⟨c, hc, hshow⟩ | hempty
      · have : (chatLoopState gw tn).showItemsCalled = true := by
          rw [chatLoopState_showItemsCalled]
          exact List.any_eq_true.mpr ⟨c, hc, by simpa using hshow⟩
        rw [this]
        simp
      · rw [hempty]
        simp
    constructor
    · show some (outToolCalls gw tn) = _
      unfold outToolCalls
      rw [hinj]
      simp
    · intro am ham m hm
      have ham2 : (some (functionMessagesOf gw tn ++ [chatFinalMsg gw tn]) : Option (List Msg))
          = some am := ham
      rw [← Option.some.inj ham2] at hm
      rcases List.mem_append.mp hm with hm | hm
      · unfold functionMessagesOf at hm
        rw [hinj] at hm
        simp only [if_false, Bool.false_eq_true, List.append_nil, List.append_assoc,
          List.mem_append] at hm
        rcases hm with hm | hm
        · exact hres m hm
        · rcases hm with hm | hm
          · simp only [List.mem_singleton] at hm
            rw [hm]
            simp [round1AssistantMsg]
          · rcases loop_resultsMsgs_shape gw tn.token tn.round1ToolCalls (chatLoopInit tn) m hm
              with hnil | ⟨_, tc, htcmem, hid⟩
            · simp [chatLoopInit] at hnil
            · rw [hid]
              intro hcontra
              exact hids tc htcmem (by simpa using hcontra)
      · simp only [List.mem_singleton] at hm
        rw [hm]
        unfold chatFinalMsg
        split <;> simp [terminalFinalMsg, round2FinalMsg]

/-- Witness for C1: a turn that searches (finding one item) without calling
`show_items` gets the synthetic call and result injected. -/
theorem auto_inject_show_items_witness :
    (chatToolPathOut gwSearch5 tnSearchOnly).result.toolCalls
      = some (tnSearchOnly.round1ToolCalls ++ [syntheticShowItemsCall gwSearch5 tnSearchOnly])
      ∧ ∃ am, (chatToolPathOut gwSearch5 tnSearchOnly).result.allMessages = some am
        ∧ syntheticShowItemsMsg gwSearch5 tnSearchOnly ∈ am := by
  have hres : ∀ m ∈ tnSearchOnly.messages, m.tool_call_id ≠ some "call_auto_show_items" := by
    intro m hm
    simp only [tnSearchOnly, List.mem_singleton] at hm
    subst hm
    simp
  have hids : ∀ tc ∈ tnSearchOnly.round1ToolCalls, tc.id ≠ "call_auto_show_items" := by
    intro tc htc
    simp only [tnSearchOnly, List.mem_singleton] at htc
    subst htc
    simp
  have hnoshow : ∀ c ∈ tnSearchOnly.round1ToolCalls, c.args.toolName ≠ "show_items" := by
    intro c hc
    simp only [tnSearchOnly, List.mem_singleton] at hc
    subst hc
    simp [ToolArgs.toolName]
  have hfresh : (chatLoopState gwSearch5 tnSearchOnly).newSearchResults ≠ [] := by
    have he : (chatLoopState gwSearch5 tnSearchOnly).newSearchResults = [item5] := rfl
    rw [he]
    simp
  have h := auto_inject_show_items gwSearch5 tnSearchOnly
    (chatToolPathOut gwSearch5 tnSearchOnly) rfl rfl (by simp [tnSearchOnly]) hres hids
  obtain ⟨h1, _, h3, _⟩ := h.1 ⟨rfl, hnoshow, hfresh⟩
  exact ⟨h1, h3⟩

/-! ## C2 -/

/-- C2 (amended): when a sentinel was found or a `submit_order` call was made,
the engine performs no second completion call and composes the final message
from the backward confirmation scan — but the scan runs over the full
outgoing sequence (persisted history followed by the round's tool results),
not the round's tool results alone; when that scan finds nothing the content
is the empty string. -/
theorem terminal_short_circuit (gw : Gateway) (tn : Turn) (o : ChatOut)
    (hok : chat gw tn = Except.ok o)
    (hi : isIntercept tn.messages = false) (htc : tn.round1ToolCalls ≠ [])
    (hterm : terminalCond gw tn = true) :
    o.completionSends = [insertContextMessage tn.messages (basketContextOf gw).1]
      ∧ o.result.message.content
          = ContentV.str ((buildOrderConfirmation (functionMessagesOf gw tn)).getD "")
      ∧ (buildOrderConfirmation (functionMessagesOf gw tn) = none →
          o.result.message.content = ContentV.str "") := by
  have hchat := chat_toolPath gw tn hi htc
  rw [hok] at hchat
  have ho : o = chatToolPathOut gw tn := Except.ok.inj hchat
  subst ho
  refine ⟨?_, ?_, ?_⟩
  · show [insertContextMessage tn.messages (basketContextOf gw).1]
        ++ (if terminalCond gw tn then [] else _) = _
    rw [hterm]
    simp
  · show (chatFinalMsg gw tn).content = _
    unfold chatFinalMsg
    rw [hterm]
    rfl
  · intro hnone
    show (chatFinalMsg gw tn).content = _
    unfold chatFinalMsg
    rw [hterm]
    show ContentV.str ((buildOrderConfirmation (functionMessagesOf gw tn)).getD "") = _
    rw [hnone]
    rfl

/-- Counterexample to C2 as stated: the round's own tool results contain no
lead-time prompt or order id, so the claim requires an empty final content —
but the code scans the whole history and resurrects the stale prompt. -/
theorem terminal_confirmation_counterexample :
    ∃ o, chat gwStub tnStaleConfirm = Except.ok o
      ∧ terminalCond gwStub tnStaleConfirm = true
      ∧ buildOrderConfirmation ((chatLoopState gwStub tnStaleConfirm).resultsMsgs) = none
      ∧ o.result.message.content = ContentV.str "Old news"
      ∧ ContentV.str "Old news" ≠ ContentV.str "" :=
  ⟨chatToolPathOut gwStub tnStaleConfirm, rfl, rfl, rfl, rfl, by simp⟩

/-- Witness for C2 (amended): one completion call only, and the final text is
the normalized lead-time prompt. -/
theorem terminal_short_circuit_witness :
    ∃ o, chat gwPizza tnPizza = Except.ok o
      ∧ o.completionSends.length = 1
      ∧ o.result.message.content = ContentV.str "Your pizza arrives in 20 minutes" := by
  refine ⟨chatToolPathOut gwPizza tnPizza, rfl, ?_, ?_⟩
  · have h := (terminal_short_circuit gwPizza tnPizza _ rfl rfl (by simp [tnPizza]) rfl).1
    rw [h]
    rfl
  · have h := (terminal_short_circuit gwPizza tnPizza _ rfl rfl (by simp [tnPizza]) rfl).2.1
    rw [h]
    rfl

/-! ## C3 -/

/-- C3 (amended): a checkout-intent turn without a token returns immediately
with `authRequired=true`, zero completion calls and no tool execution — but
the gateway is called once (`getBasket`, to load the basket context) before
the interceptor runs, so the gateway log is `[getBasket]`, not empty. -/
theorem checkout_no_token (gw : Gateway) (tn : Turn)
    (hint : isIntercept tn.messages = true) (htok : tn.token = none) :
    chat gw tn = Except.ok authRequiredOut := by
  simp only [chat, hint, if_true]
  unfold interceptPath
  rw [htok]
  rfl

/-- Counterexample to C3 as stated: the turn does return `authRequired=true`
with no completion call, but the gateway-call log is `[getBasket]` — one
gateway call, not zero. -/
theorem checkout_gateway_call_counterexample :
    ∃ o, chat gwStub tnPlaceOrder = Except.ok o
      ∧ o.result.authRequired = some true
      ∧ o.completionSends = []
      ∧ o.gwCalls = [GwCall.getBasket]
      ∧ o.gwCalls ≠ [] :=
  ⟨authRequiredOut, rfl, rfl, rfl, rfl, by simp [authRequiredOut]⟩

/-- Witness for C3 (amended) at the "buy a pizza" turn. -/
theorem checkout_no_token_witness :
    chat gwStub tnBuy = Except.ok authRequiredOut ∧ authRequiredOut.completionSends = [] :=
  ⟨checkout_no_token gwStub tnBuy rfl rfl, rfl⟩

/-! ## C4 -/

theorem jsEq_num_right (v : JVal) (n : Int) :
    JVal.jsEq v (JVal.num n) = true ↔ v = JVal.num n := by
  cases v <;> simp [JVal.jsEq]

/-- C4 (amended): for an `add_to_basket` or `verify_option_selection` call
whose item id is absent from a non-empty Search Result Cache, no gateway call
is made and the tool result is a recoverable error — `add_to_basket`'s error
lists the valid id set, while `verify_option_selection`'s error only tells
the model to search again, without listing the valid ids. -/
theorem invalid_item_tool_errors (gw : Gateway) (token : Option String)
    (cache : List JVal) (mid : Int) (q : Option Int) (osel : Option JVal)
    (osid oname : String)
    (hne : cache ≠ [])
    (habs : ∀ item ∈ cache, item.getField "menuItemId" ≠ some (JVal.num mid)) :
    executeTool gw token (ToolArgs.addToBasket mid q osel) cache
      = (Except.ok (JVal.obj [("error", JVal.str ("Invalid menuItemId. Valid IDs: "
          ++ joinVals ", " (cacheIds cache)))]), [])
    ∧ executeTool gw token (ToolArgs.verifyOptionSelection mid osid oname) cache
      = (Except.ok (JVal.obj [("error", JVal.str ("Item " ++ toString mid
          ++ " not found in search results. Please search again."))]), []) := by
  have hfind : cache.find? (fun i =>
      match i.getField "menuItemId" with
      | some (JVal.num n) => n == mid
      | _ => false) = none := by
    rw [List.find?_eq_none]
    intro i hi
    cases hg : i.getField "menuItemId" with
    | none => simp
    | some v =>
      cases v <;> simp
      next n =>
        intro hn
        exact habs i hi (by rw [hg, hn])
  constructor
  · simp only [executeTool]
    split_ifs with hcond
    · rfl
    · exfalso
      apply hcond
      have hlen : (cacheIds cache).length > 0 := by
        unfold cacheIds
        rw [List.length_map]
        exact List.length_pos.mpr hne
      have hany : ((cacheIds cache).any fun o =>
          match o with
          | some v => JVal.jsEq v (JVal.num mid)
          | none => false) = false := by
        rw [List.any_eq_false]
        intro o ho
        rcases List.mem_map.mp ho with ⟨item, hitem, rfl⟩
        cases hg : item.getField "menuItemId" with
        | none => simp
        | some v =>
          simp only [Bool.not_eq_true]
          rw [← Bool.not_eq_true, jsEq_num_right]
          intro hv
          exact habs item hitem (by rw [hg, hv])
      rw [hany]
      simp [hlen]
  · simp only [executeTool]
    unfold verifyOptionTool
    rw [hfind]

/-- Counterexample to C4 as stated: with cache `[5]` and requested id 2,
`verify_option_selection`'s error text does not list the valid id set (it
does not even contain "5"), while `add_to_basket`'s error does. -/
theorem verify_error_omits_valid_ids :
    executeTool gwStub none (ToolArgs.verifyOptionSelection 2 "Size" "Large") cacheC4
      = (Except.ok (JVal.obj [("error",
          JVal.str "Item 2 not found in search results. Please search again.")]), [])
    ∧ hasSubstr "Item 2 not found in search results. Please search again." "5" = false
    ∧ executeTool gwStub none (ToolArgs.addToBasket 2 none none) cacheC4
      = (Except.ok (JVal.obj [("error", JVal.str "Invalid menuItemId. Valid IDs: 5")]), []) :=
  ⟨rfl, rfl, rfl⟩

/-- Witness for C4 (amended) at the concrete cache `[5]`, requested id 2. -/
theorem invalid_item_tool_errors_witness :
    executeTool gwStub none (ToolArgs.addToBasket 2 none none) cacheC4
      = (Except.ok (JVal.obj [("error", JVal.str ("Invalid menuItemId. Valid IDs: "
          ++ joinVals ", " (cacheIds cacheC4)))]), [])
    ∧ executeTool gwStub none (ToolArgs.verifyOptionSelection 2 "Size" "Large") cacheC4
      = (Except.ok (JVal.obj [("error", JVal.str ("Item " ++ toString (2 : Int)
          ++ " not found in search results. Please search again."))]), []) := by
  have habs : ∀ item ∈ cacheC4, item.getField "menuItemId" ≠ some (JVal.num 2) := by
    intro item hitem
    simp only [cacheC4, List.mem_singleton] at hitem
    subst hitem
    intro hcontra
    have h5 : item5.getField "menuItemId" = some (JVal.num 5) := rfl
    rw [h5] at hcontra
    simp at hcontra
  exact invalid_item_tool_errors gwStub none cacheC4 2 none none "Size" "Large"
    (by simp [cacheC4]) habs

/-! ## C5 -/

theorem chatFinalMsg_role (gw : Gateway) (tn : Turn) :
    (chatFinalMsg gw tn).role = Role.assistant := by
  unfold chatFinalMsg
  split <;> rfl

theorem formatBasketContext_role (b : Basket) :
    (formatBasketContext b).role = Role.system := rfl

/-- C5 (amended): the synthesized basket-context message is inserted into the
sequence sent to the completion endpoint at position 1 when the history
starts with a system message and at position 0 otherwise (the code checks
only `messages[0]`, not the first system message anywhere); the caller's
sequence is passed through unchanged as a prefix of `allMessages`, every
message the engine appends has a non-`system` role, and hence the context
message never appears in the returned `allMessages`. -/
theorem context_injection (gw : Gateway) (tn : Turn) (o : ChatOut) (am : List Msg)
    (hok : chat gw tn = Except.ok o) (ham : o.result.allMessages = some am) :
    am.take tn.messages.length = tn.messages
      ∧ (∀ m ∈ am.drop tn.messages.length, m.role ≠ Role.system)
      ∧ o.completionSends.head?
          = some (insertContextMessage tn.messages (basketContextOf gw).1)
      ∧ (∀ s ∈ o.completionSends,
          s = insertContextMessage tn.messages (basketContextOf gw).1
            ∨ s = insertContextMessage (functionMessagesOf gw tn) (basketContextOf gw).1)
      ∧ (∀ (msgs : List Msg) (ctx : Msg), insertContextMessage msgs (some ctx)
          = match msgs with
            | [] => [ctx]
            | m :: rest => if m.role = Role.system then m :: ctx :: rest else ctx :: msgs)
      ∧ (∀ ctx b, basketContextOf gw = (some ctx, b) → ctx ∉ tn.messages → ctx ∉ am) := by
  rcases chat_shape gw tn o hok with ⟨ho, hi, htc⟩ | hnone
  swap
  · rw [hnone.1] at ham
    cases ham
  subst ho
  have ham2 : (some (functionMessagesOf gw tn ++ [chatFinalMsg gw tn]) : Option (List Msg))
      = some am := ham
  have hamv := Option.some.inj ham2
  have hsplit : am = tn.messages ++ ([round1AssistantMsg gw tn]
      ++ ((chatLoopState gw tn).resultsMsgs
        ++ ((if injectTriggered gw tn then [syntheticShowItemsMsg gw tn] else [])
          ++ [chatFinalMsg gw tn]))) := by
    rw [← hamv]
    unfold functionMessagesOf
    simp [List.append_assoc]
  have htake : am.take tn.messages.length = tn.messages := by
    rw [hsplit]
    exact List.take_left _ _
  have hmemite : ∀ (m : Msg),
      m ∈ (if injectTriggered gw tn then [syntheticShowItemsMsg gw tn] else []) →
      m = syntheticShowItemsMsg gw tn := by
    intro m hm
    split at hm
    · simpa using hm
    · simp at hm
  have hdrop : ∀ m ∈ am.drop tn.messages.length, m.role ≠ Role.system := by
    rw [hsplit, List.drop_left]
    intro m hm
    simp only [List.mem_append, List.mem_singleton] at hm
    rcases hm with hm | hm | hm | hm
    · rw [hm]
      intro hcontra
      cases hcontra
    · rcases loop_resultsMsgs_shape gw tn.token tn.round1ToolCalls (chatLoopInit tn) m hm
        with hnil | ⟨hrole, _, _, _⟩
      · simp [chatLoopInit] at hnil
      · rw [hrole]
        intro hcontra
        cases hcontra
    · rw [hmemite m hm]
      intro hcontra
      cases hcontra
    · rw [hm, chatFinalMsg_role]
      intro hcontra
      cases hcontra
  refine ⟨htake, hdrop, ?_, ?_, ?_, ?_⟩
  · show ((insertContextMessage tn.messages (basketContextOf gw).1
        :: (if terminalCond gw tn then [] else _)) : List (List Msg)).head? = _
    rfl
  · intro s hs
    have hsends : (chatToolPathOut gw tn).completionSends
        = insertContextMessage tn.messages (basketContextOf gw).1
          :: (if terminalCond gw tn then [] else
            [insertContextMessage (functionMessagesOf gw tn) (basketContextOf gw).1]) := rfl
    rw [hsends] at hs
    rcases List.mem_cons.mp hs with hs | hs
    · exact Or.inl hs
    · split at hs
      · simp at hs
      · simp only [List.mem_singleton] at hs
        exact Or.inr hs
  · intro msgs ctx
    cases msgs with
    | nil => rfl
    | cons m rest => rfl
  · intro ctx b heq hnotin hmem
    have hrole : ctx.role = Role.system := by
      unfold basketContextOf at heq
      cases hgb : gw.getBasketR with
      | ok bb =>
        rw [hgb] at heq
        have : some (formatBasketContext bb) = some ctx := congrArg Prod.fst heq
        rw [← Option.some.inj this]
        rfl
      | error e =>
        rw [hgb] at heq
        cases congrArg Prod.fst heq
    rw [hsplit] at hmem
    rcases List.mem_append.mp hmem with hmem | hmem
    · exact hnotin hmem
    · have := hdrop ctx (by rw [hsplit, List.drop_left]; exact hmem)
      exact this hrole

/-- Counterexample to C5 as stated: the history `[user, system]` has a first
system message (at index 1), so the claim places the context right after it
(index 2) — but the engine checks only `messages[0]` and sends the context at
position 0, before the system message. -/
theorem context_position_counterexample :
    ∃ o, chat gwStub tnUserSys = Except.ok o
      ∧ o.completionSends = [[ctxEmptyBasket, userHi, sysMsgS]]
      ∧ sysMsgS.role = Role.system
      ∧ [ctxEmptyBasket, userHi, sysMsgS] ≠ [userHi, sysMsgS, ctxEmptyBasket] := by
  refine ⟨{ result := { message := { role := Role.assistant, content := ContentV.str "ok" } },
            gwCalls := [GwCall.getBasket],
            completionSends := [[ctxEmptyBasket, userHi, sysMsgS]] }, rfl, rfl, rfl, ?_⟩
  intro h
  have h1 : ctxEmptyBasket = userHi := (List.cons.injEq _ _ _ _ ▸ h).1
  have h2 : Role.system = Role.user := congrArg Msg.role h1
  cases h2

/-- Witness for C5 (amended) at the concrete searching turn. -/
theorem context_injection_witness :
    ∃ o am, chat gwSearch5 tnSearchOnly = Except.ok o
      ∧ o.result.allMessages = some am
      ∧ am.take tnSearchOnly.messages.length = tnSearchOnly.messages
      ∧ o.completionSends.head?
          = some (insertContextMessage tnSearchOnly.messages (basketContextOf gwSearch5).1) :=
  ⟨chatToolPathOut gwSearch5 tnSearchOnly,
   functionMessagesOf gwSearch5 tnSearchOnly ++ [chatFinalMsg gwSearch5 tnSearchOnly],
   rfl, rfl,
   (context_injection gwSearch5 tnSearchOnly _ _ rfl rfl).1,
   (context_injection gwSearch5 tnSearchOnly _ _ rfl rfl).2.2.1⟩

/-! ## C7 -/

/-- C7: `remove_from_basket` on the only basket line, removing at least its
remaining quantity, reads the basket and then invokes `clearBasket` —
returning the success result and issuing no partial `updateBasket` remove;
in every other case (given a readable basket) it issues an `updateBasket`
remove with the requested quantity (`quantity || 1`). -/
theorem remove_last_line_clears (gw : Gateway) (token : Option String) (cache : List JVal)
    (mid : Int) (q : Option Int) (osel : Option JVal) (b : Basket)
    (hb : gw.getBasketR = Except.ok b) :
    ((∃ line, b.basketMenuItems = [line] ∧ line.menuItemId = mid
        ∧ line.quantity ≤ effQuantity q) →
      gw.clearBasketR = Except.ok () →
      executeTool gw token (ToolArgs.removeFromBasket mid q osel) cache
        = (Except.ok (JVal.obj [("status", JVal.num 200),
            ("message", JVal.str "Basket cleared")]),
           [GwCall.getBasket, GwCall.clearBasket]))
    ∧ ((match b.basketMenuItems.find? (fun i => i.menuItemId == mid) with
        | some it => decide (it.quantity ≤ effQuantity q) && b.basketMenuItems.length == 1
        | none => false) = false →
      (executeTool gw token (ToolArgs.removeFromBasket mid q osel) cache).2
        = [GwCall.getBasket,
           GwCall.updateBasket (BasketUpdate.remove mid (effQuantity q) osel)]) := by
  constructor
  · rintro ⟨line, hbl, hid, hq⟩ hclear
    simp only [executeTool]
    rw [hb]
    dsimp only
    rw [if_pos]
    · rw [hclear]
    · rw [hbl]
      have hfind : List.find? (fun i => i.menuItemId == mid) [line] = some line := by
        simp [List.find?, hid]
      rw [hfind]
      simp [hq]
  · intro hcond
    simp only [executeTool]
    rw [hb]
    dsimp only
    rw [if_neg]
    · cases hr : gw.updateBasketR (BasketUpdate.remove mid (effQuantity q) osel) with
      | ok bb => rfl
      | error e => rfl
    · rw [hcond]
      simp

/-- Witness for C7: removing 2 of 2 units of the only line clears; removing
only 1 issues a partial `updateBasket` remove instead. -/
theorem remove_last_line_clears_witness :
    executeTool gwOneLine none (ToolArgs.removeFromBasket 5 (some 2) none) []
      = (Except.ok (JVal.obj [("status", JVal.num 200),
          ("message", JVal.str "Basket cleared")]),
         [GwCall.getBasket, GwCall.clearBasket])
    ∧ (executeTool gwOneLine none (ToolArgs.removeFromBasket 5 (some 1) none) []).2
      = [GwCall.getBasket, GwCall.updateBasket (BasketUpdate.remove 5 1 none)] := by
  constructor
  · exact (remove_last_line_clears gwOneLine none [] 5 (some 2) none _ rfl).1
      ⟨lineB5, rfl, rfl, by decide⟩ rfl
  · exact (remove_last_line_clears gwOneLine none [] 5 (some 1) none _ rfl).2 rfl

/-! ## C8 -/

theorem msgAuthRequired_iff (m : Msg) :
    msgAuthRequired m = true ↔ m.role = Role.tool
      ∧ ∃ j, m.content = ContentV.json j
        ∧ j.getField "error" = some (JVal.str "AUTHENTICATION_REQUIRED") := by
  obtain ⟨role, content, id, calls⟩ := m
  cases role <;> cases content <;> simp only [msgAuthRequired] <;> simp
  next j =>
    cases hg : j.getField "error" with
    | none => simp [hg]
    | some v => cases v <;> simp [hg]

theorem msgTokenExpired_iff (m : Msg) :
    msgTokenExpired m = true ↔ m.role = Role.tool
      ∧ ((∃ j, m.content = ContentV.json j
            ∧ j.getField "error" = some (JVal.str "TOKEN_EXPIRED"))
         ∨ (∃ s, m.content = ContentV.str s ∧ hasSubstr s "TOKEN_EXPIRED" = true)) := by
  obtain ⟨role, content, id, calls⟩ := m
  cases role <;> cases content <;> simp only [msgTokenExpired] <;> simp
  next j =>
    cases hg : j.getField "error" with
    | none => simp [hg]
    | some v => cases v <;> simp [hg]

/-- C8 (amended): the classifier is a total scan that never throws;
`authRequired` is set iff some tool-result message carries parsed JSON whose
`error` field equals `AUTHENTICATION_REQUIRED` (JSON-field match only — no
fallback exists for this sentinel), while `tokenExpired` is set iff some
tool-result message either carries parsed JSON whose `error` field equals
`TOKEN_EXPIRED` or has unparseable content containing the substring
`TOKEN_EXPIRED`. -/
theorem check_auth_status_spec (msgs : List Msg) :
    ((checkAuthStatus msgs).1 = true ↔ ∃ m ∈ msgs, m.role = Role.tool
        ∧ ∃ j, m.content = ContentV.json j
          ∧ j.getField "error" = some (JVal.str "AUTHENTICATION_REQUIRED"))
    ∧ ((checkAuthStatus msgs).2 = true ↔ ∃ m ∈ msgs, m.role = Role.tool
        ∧ ((∃ j, m.content = ContentV.json j
              ∧ j.getField "error" = some (JVal.str "TOKEN_EXPIRED"))
           ∨ (∃ s, m.content = ContentV.str s ∧ hasSubstr s "TOKEN_EXPIRED" = true))) := by
  constructor
  · rw [show (checkAuthStatus msgs).1 = msgs.any msgAuthRequired from rfl, List.any_eq_true]
    constructor
    · rintro ⟨m, hm, hflag⟩
      exact ⟨m, hm, (msgAuthRequired_iff m).mp hflag⟩
    · rintro ⟨m, hm, hflag⟩
      exact ⟨m, hm, (msgAuthRequired_iff m).mpr hflag⟩
  · rw [show (checkAuthStatus msgs).2 = msgs.any msgTokenExpired from rfl, List.any_eq_true]
    constructor
    · rintro ⟨m, hm, hflag⟩
      exact ⟨m, hm, (msgTokenExpired_iff m).mp hflag⟩
    · rintro ⟨m, hm, hflag⟩
      exact ⟨m, hm, (msgTokenExpired_iff m).mpr hflag⟩

/-- Counterexample to C8 as stated: for unparseable content the substring
fallback exists only for `TOKEN_EXPIRED`; raw content naming
`AUTHENTICATION_REQUIRED` sets no flag at all. -/
theorem auth_substring_fallback_counterexample :
    hasSubstr "error: AUTHENTICATION_REQUIRED (raw, not JSON)" "AUTHENTICATION_REQUIRED" = true
      ∧ checkAuthStatus [msgRawAuth] = (false, false)
      ∧ checkAuthStatus [msgRawToken] = (false, true) :=
  ⟨rfl, rfl, rfl⟩

/-! ## C9 -/

/-- C9: `search_menu` forwards only the first element of its `searchTerms`
array to the gateway (the call and its result are independent of the
remaining terms, and the logged gateway query is exactly the head). -/
theorem search_menu_first_term_only (gw : Gateway) (token : Option String)
    (cache : List JVal) (t : String) (rest : List String) :
    executeTool gw token (ToolArgs.searchMenu (t :: rest)) cache
      = executeTool gw token (ToolArgs.searchMenu [t]) cache
    ∧ (executeTool gw token (ToolArgs.searchMenu (t :: rest)) cache).2
      = [GwCall.searchMenu (some t)] := by
  refine ⟨rfl, ?_⟩
  simp only [executeTool]
  cases hr : gw.searchMenuR (t :: rest).head? <;> rfl

/-! ## C10 -/

/-- C10: the chat result carries the `allMessages` replacement history
exactly when the turn was not intercepted and round 1 produced at least one
tool call; every other turn (interceptor short-circuits and turns answered
without tools) returns only the single assistant message, with `allMessages`
and `toolCalls` both absent. -/
theorem all_messages_iff_tool_calls (gw : Gateway) (tn : Turn) (o : ChatOut)
    (hok : chat gw tn = Except.ok o) :
    (o.result.allMessages.isSome = true
        ↔ (isIntercept tn.messages = false ∧ tn.round1ToolCalls ≠ []))
      ∧ (o.result.allMessages = none → o.result.toolCalls = none) := by
  rcases chat_shape gw tn o hok with ⟨ho, hi, htc⟩ | ⟨hnone, htcnone⟩
  · subst ho
    have hsome : (chatToolPathOut gw tn).result.allMessages
        = some (functionMessagesOf gw tn ++ [chatFinalMsg gw tn]) := rfl
    constructor
    · rw [hsome]
      exact ⟨fun _ => ⟨hi, htc⟩, fun _ => rfl⟩
    · rw [hsome]
      intro hcontra
      cases hcontra
  · constructor
    · rw [hnone]
      constructor
      · intro h
        exact absurd h (by simp)
      · rintro ⟨hi, htc⟩
        exfalso
        have hchat := chat_toolPath gw tn hi htc
        rw [hok] at hchat
        have ho := Except.ok.inj hchat
        rw [ho] at hnone
        have hsome : (chatToolPathOut gw tn).result.allMessages
            = some (functionMessagesOf gw tn ++ [chatFinalMsg gw tn]) := rfl
        rw [hsome] at hnone
        cases hnone
    · intro _
      exact htcnone

/-- Witness for C10: a searching turn yields `allMessages`; the intercepted
"place order" turn and a no-tool-call turn do not. -/
theorem all_messages_iff_tool_calls_witness :
    ((chatToolPathOut gwSearch5 tnSearchOnly).result.allMessages.isSome = true
      ↔ (isIntercept tnSearchOnly.messages = false ∧ tnSearchOnly.round1ToolCalls ≠ [])) := by
  exact (all_messages_iff_tool_calls gwSearch5 tnSearchOnly
    (chatToolPathOut gwSearch5 tnSearchOnly) rfl).1
